import Mathlib

/-!
Verification of the LangGraph data-engineering workflow orchestrator
(`langgraph_workflow.py`).

The development shallowly embeds the control loop of the workflow:

* `State` mirrors the `State` TypedDict threaded through the graph
  (the `current_error` field of the TypedDict is never read or written by
  any node, so it is omitted).
* The three executor dispatch nodes (`call_connector_agent`,
  `call_smart_transformer_agent`, `call_bigquery_agent`) are embedded as
  functions of the state and of the executor's response text; the
  executor/LLM calls themselves are external effects, so their textual
  results enter as explicit parameters.
* `delegator_logic` (the Router) and `conflict_resolver` (the Recovery
  Resolver) are embedded as functions of the state and of a
  `RouterOutcome`, the abstraction of "the model's reply parsed with
  `ast.literal_eval`": either a parsed `{agent, action, parameters}`
  mapping (with `parameters` already stringified, as the Python code
  immediately applies `str(...)` to it) or a parse/model exception.
  Python exceptions that escape a node are modelled with `Except Unit`.
* The graph wiring of `execute_workflow` is embedded as a step function
  on configurations `Node × State`, with `Reachable` the set of
  configurations reachable from the initial one.
* The TF-IDF similarity search `semantic_search` is embedded over `ℝ`
  (the Python code computes with floating point; the embedding uses exact
  real arithmetic, which agrees with the float computation on the sign
  and comparison facts proved here).
-/

namespace DataEngineerWorkflow

/-- Mirror of Python `str.upper` as used on the executor response texts
(Lean's `Char.toUpper`, like the relevant fragment of Python's `str.upper`,
maps ASCII lowercase letters to uppercase and fixes everything else;
the failure token `"ERROR"` is pure ASCII). -/
def upperList (l : List Char) : List Char := l.map Char.toUpper

/-- Mirror of Python `str.lower` as used on agent names and on text fed to
the TF-IDF vectorizer (ASCII case mapping). -/
def lowerList (l : List Char) : List Char := l.map Char.toLower

/-- Does the second list start with the first one?  Helper for the
embedding of Python's substring test `pat in s`. -/
def seqStartsWith [DecidableEq α] : List α → List α → Bool
  | [], _ => true
  | _ :: _, [] => false
  | p :: ps, c :: cs => p = c && seqStartsWith ps cs

/-- Embedding of Python's substring operator `pat in s`: does `pat` occur
contiguously inside `l`? -/
def containsSeq [DecidableEq α] (pat : List α) : List α → Bool
  | [] => decide (pat = [])
  | c :: cs => seqStartsWith pat (c :: cs) || containsSeq pat cs

/-- Embedding of the failure test shared by all three dispatch nodes:
`"ERROR" in response_text.upper()`. -/
def signalsFailure (resp : String) : Bool :=
  containsSeq "ERROR".toList (upperList resp.toList)

/-- Mirror of the `State` TypedDict of `langgraph_workflow.py`.  Entries of
`tasks_done` are the singleton dicts `{tool_name: task}` appended by the
dispatch nodes, embedded as pairs. -/
structure State where
  user_request : String
  tasks_done : List (String × String)
  model_responses : List String
  next_agent : String
  next_task : String
  has_error : Bool
  error_details : String
deriving DecidableEq

/-- Outcome of one `model.invoke(prompt)` plus `ast.literal_eval` round
trip, as consumed by `delegator_logic` and `conflict_resolver`: either the
parsed `{agent, action, parameters}` mapping (`params` being the
`str(...)`-rendered parameter dict) or an exception from the model call or
from parsing its reply. -/
inductive RouterOutcome where
  | parsed (agent action params : String)
  | parseError
deriving DecidableEq

/-- Embedding of `call_connector_agent`; `resp` is the text of the last
message returned by the connector executor. -/
def call_connector_agent (s : State) (resp : String) : State :=
  if signalsFailure resp then
    { s with has_error := true, error_details := resp }
  else
    { s with error_details := "",
             tasks_done := s.tasks_done ++ [("call_connector_agent", s.next_task)],
             model_responses := s.model_responses ++ ["connector_agent:" ++ resp] }

/-- Embedding of `call_smart_transformer_agent`.  Unlike the other two
dispatch nodes, its success branch does not clear `error_details`, and the
string it appends to `model_responses` has no colon after the agent name;
both quirks are in the source. -/
def call_smart_transformer_agent (s : State) (resp : String) : State :=
  if signalsFailure resp then
    { s with has_error := true, error_details := resp }
  else
    { s with tasks_done := s.tasks_done ++ [("call_smart_transformer_agent", s.next_task)],
             model_responses := s.model_responses ++ ["smart_transformer_agent" ++ resp] }

/-- Embedding of `call_bigquery_agent`; note the source records the task
under the key `"bigquery_agent"`, not `"call_bigquery_agent"`. -/
def call_bigquery_agent (s : State) (resp : String) : State :=
  if signalsFailure resp then
    { s with has_error := true, error_details := resp }
  else
    { s with error_details := "",
             tasks_done := s.tasks_done ++ [("bigquery_agent", s.next_task)],
             model_responses := s.model_responses ++ ["bigquery_agent:" ++ resp] }

/-- Embedding of `delegator_logic` (the Router).  When `has_error` is set
it short-circuits without consulting the model (the `RouterOutcome`
argument is ignored on that branch).  Otherwise a parse failure of the
model reply (`ast.literal_eval` or the `['agent']` lookup raising) is an
uncaught exception, modelled as `Except.error`. -/
def delegator_logic (s : State) (o : RouterOutcome) : Except Unit State :=
  if s.has_error then
    .ok { s with next_agent := "conflict_resolver",
                 next_task := "Resolve the error : " ++ s.error_details,
                 has_error := false }
  else
    match o with
    | .parsed agent action params =>
        .ok { s with next_task := action ++ " with parameters " ++ params,
                     next_agent := agent }
    | .parseError => .error ()

/-- Is `c` a word character in the sense of the regex `\w` used by the
vectorizer's token pattern (letters, digits, underscore; ASCII model)? -/
def isWordChar (c : Char) : Bool := c.isAlphanum || c = '_'

/-- Splits a character list into its maximal runs of word characters;
`acc` holds the reversed current run. -/
def wordRunsAux : List Char → List Char → List (List Char)
  | [], acc => if acc.isEmpty then [] else [acc.reverse]
  | c :: cs, acc =>
      if isWordChar c then wordRunsAux cs (c :: acc)
      else if acc.isEmpty then wordRunsAux cs []
      else acc.reverse :: wordRunsAux cs []

/-- Embedding of `TfidfVectorizer`'s analyzer: lowercase the text, then
extract the tokens matched by the default token pattern
`(?u)\b\w\w+\b`, i.e. the maximal word-character runs of length at least
two, in order of occurrence. -/
def tokenize (s : String) : List String :=
  ((wordRunsAux (lowerList s.toList) []).filter (fun r => 2 ≤ r.length)).map
    (fun r => ⟨r⟩)

/-- Lexicographic comparison of character lists by code point, mirroring
Python's string order as used when scikit-learn sorts the fitted
vocabulary. -/
def lexLe : List Char → List Char → Bool
  | [], _ => true
  | _ :: _, [] => false
  | a :: as, b :: bs => if a < b then true else if b < a then false else lexLe as bs

/-- Embedding of the vocabulary fitted by
`TfidfVectorizer().fit_transform(task_texts)`: the distinct tokens of the
corpus, sorted alphabetically (scikit-learn sorts the vocabulary; the
order only fixes the order of vector components). -/
def fitVocabulary (docs : List String) : List String :=
  ((docs.map tokenize).flatten).dedup.insertionSort
    (fun s t => lexLe s.toList t.toList = true)

/-- Hexadecimal digit characters, for `\uXXXX` escapes. -/
def hexDigit (n : ℕ) : Char :=
  if n < 10 then Char.ofNat (48 + n) else Char.ofNat (87 + n)

/-- Escaping of one character as performed by Python's `json.dumps` with
its default `ensure_ascii=True` (short escapes for the common control
characters, `\uXXXX` for other control and all non-ASCII characters,
surrogate pairs beyond the basic multilingual plane). -/
def jsonEscapeChar (c : Char) : List Char :=
  if c = '"' then ['\\', '"']
  else if c = '\\' then ['\\', '\\']
  else if c = '\n' then ['\\', 'n']
  else if c = '\t' then ['\\', 't']
  else if c = '\r' then ['\\', 'r']
  else if c.toNat = 8 then ['\\', 'b']
  else if c.toNat = 12 then ['\\', 'f']
  else if c.toNat < 32 || 127 ≤ c.toNat then
    if c.toNat < 65536 then
      ['\\', 'u', hexDigit (c.toNat / 4096 % 16), hexDigit (c.toNat / 256 % 16),
       hexDigit (c.toNat / 16 % 16), hexDigit (c.toNat % 16)]
    else
      let v := c.toNat - 65536
      let hi := 55296 + v / 1024
      let lo := 56320 + v % 1024
      ['\\', 'u', hexDigit (hi / 4096 % 16), hexDigit (hi / 256 % 16),
       hexDigit (hi / 16 % 16), hexDigit (hi % 16),
       '\\', 'u', hexDigit (lo / 4096 % 16), hexDigit (lo / 256 % 16),
       hexDigit (lo / 16 % 16), hexDigit (lo % 16)]
  else [c]

/-- Embedding of `json.dumps(task)` for a string `task`, as applied to
each recorded model response before vectorization. -/
def jsonDumpsStr (s : String) : String :=
  ⟨'"' :: ((s.toList.map jsonEscapeChar).flatten ++ ['"'])⟩

/-- Condition under which `semantic_search` raises: `TfidfVectorizer`
raises `ValueError: empty vocabulary` when the corpus (here the
`json.dumps`-rendered `model_responses`) yields no token. -/
def vocabularyIsEmpty (model_responses : List String) : Bool :=
  fitVocabulary (model_responses.map jsonDumpsStr) = []

/-- Embedding of `conflict_resolver` (the Recovery Resolver).  The guard
is Python's truthiness test on `model_responses[-1] if model_responses
else ""`; when it fails the node returns the state unchanged without
invoking the similarity search or the model (hence the `RouterOutcome`
argument is unused there).  The call to `semantic_search` happens before
the `try:` block, so its `empty vocabulary` exception escapes the node
(`Except.error`); its result is only interpolated into the prompt, which
the embedding treats as opaque.  Inside the `try:` block, a successful
parse installs the recommended agent and clears the error flags, and any
parse/model exception is caught and converted into a terminal `END`
decision. -/
def conflict_resolver (s : State) (o : RouterOutcome) : Except Unit State :=
  let latest := s.model_responses.getLast?.getD ""
  if latest = "" then .ok s
  else if vocabularyIsEmpty s.model_responses then .error ()
  else
    match o with
    | .parsed agent action params =>
        .ok { s with next_agent := agent,
                     next_task := action ++ " with parameters " ++ params,
                     has_error := false,
                     error_details := "" }
    | .parseError =>
        .ok { s with next_agent := "END",
                     next_task := "End the workflow as the conflict could not be resolved" }

/-- Embedding of `resolution_flow`, the conditional-edge selector applied
to the Resolver's output: exact comparison against `"END"`, then substring
tests on the lowercased agent name, with a fall-through to
`"delegator_logic"`. -/
def resolution_flow (s : State) : String :=
  if s.next_agent = "END" then "END"
  else if containsSeq "connector".toList (lowerList s.next_agent.toList) then
    "connector_agent"
  else if containsSeq "transformer".toList (lowerList s.next_agent.toList) then
    "smart_transformer_agent"
  else if containsSeq "bigquery".toList (lowerList s.next_agent.toList) then
    "bigquery_agent"
  else "delegator_logic"

/-- Nodes of the compiled graph, plus `done` for the END sentinel and
`crashed` for a run aborted by an uncaught exception (including the
`KeyError` LangGraph raises when a conditional-edge key is missing from
the edge mapping). -/
inductive Node where
  | delegator
  | connector
  | transformer
  | bigquery
  | resolver
  | done
  | crashed
deriving DecidableEq

/-- Embedding of the conditional-edge mapping attached to
`delegator_logic` in `execute_workflow`: the lambda returns
`state['next_agent']` and the mapping matches it by exact string equality
against exactly five keys; any other value has no edge (`none`), which
aborts the run at runtime. -/
def delegator_route (agent : String) : Option Node :=
  if agent = "connector_agent" then some .connector
  else if agent = "smart_transformer_agent" then some .transformer
  else if agent = "bigquery_agent" then some .bigquery
  else if agent = "conflict_resolver" then some .resolver
  else if agent = "END" then some .done
  else none

/-- Embedding of the conditional-edge mapping attached to
`conflict_resolver` in `execute_workflow`: `resolution_flow` computes one
of five strings, each of which is an exact key of the mapping. -/
def resolver_route (s : State) : Node :=
  match resolution_flow s with
  | "END" => .done
  | "connector_agent" => .connector
  | "smart_transformer_agent" => .transformer
  | "bigquery_agent" => .bigquery
  | _ => .delegator

/-- Input consumed by one superstep of the graph: the parsed model reply
(at Router/Resolver nodes) or the executor's response text (at dispatch
nodes). -/
inductive OracleInput where
  | router (o : RouterOutcome)
  | executor (resp : String)

/-- One superstep of the compiled graph: run the node the configuration
is at on the given external input, then follow its outgoing edge.  The
unconditional `add_edge("delegator_logic", END)` of the source is a dead
edge (the conditional edges of the same node always fire) and is not
represented.  Mismatched input kinds leave the configuration unchanged,
as do the absorbing `done` and `crashed` configurations. -/
def step (c : Node × State) (inp : OracleInput) : Node × State :=
  match c.1, inp with
  | .delegator, .router o =>
      match delegator_logic c.2 o with
      | .error _ => (.crashed, c.2)
      | .ok s' =>
          match delegator_route s'.next_agent with
          | some n => (n, s')
          | none => (.crashed, s')
  | .connector, .executor r => (.delegator, call_connector_agent c.2 r)
  | .transformer, .executor r => (.delegator, call_smart_transformer_agent c.2 r)
  | .bigquery, .executor r => (.delegator, call_bigquery_agent c.2 r)
  | .resolver, .router o =>
      match conflict_resolver c.2 o with
      | .error _ => (.crashed, c.2)
      | .ok s' => (resolver_route s', s')
  | _, _ => c

/-- Initial state of the control loop for a given user request: empty
step log, empty response log, no error recorded. -/
def initState (req : String) : State :=
  { user_request := req, tasks_done := [], model_responses := [],
    next_agent := "", next_task := "", has_error := false, error_details := "" }

/-- Configurations reachable by the control loop for the request `req`,
starting at the Router (the graph's edge `START → delegator_logic`) in the
initial state. -/
inductive Reachable (req : String) : Node × State → Prop where
  | init : Reachable req (.delegator, initState req)
  | next : ∀ c inp, Reachable req c → Reachable req (step c inp)

/-- Number of occurrences of token `t` in `text`, i.e. the raw term
frequency used by the vectorizer. -/
def termCount (text t : String) : ℕ := (tokenize text).count t

/-- Number of corpus documents containing token `t`, i.e. the document
frequency used by the vectorizer's IDF weighting. -/
def docFreq (docs : List String) (t : String) : ℕ :=
  (docs.filter (fun d => decide (t ∈ tokenize d))).length

/-- Smoothed inverse document frequency of scikit-learn's
`TfidfVectorizer` (its defaults `smooth_idf=True`, `sublinear_tf=False`):
`ln((1 + n) / (1 + df)) + 1`. -/
noncomputable def idf (n d : ℕ) : ℝ :=
  Real.log ((1 + (n : ℝ)) / (1 + (d : ℝ))) + 1

/-- Unnormalized TF-IDF vector of `text` over the vocabulary fitted on
`docs` (used both for the corpus rows of `fit_transform` and for the
query row of `transform`, which reuses the fitted vocabulary and document
frequencies). -/
noncomputable def tfidfRaw (docs : List String) (text : String) : List ℝ :=
  (fitVocabulary docs).map
    (fun t => (termCount text t : ℝ) * idf docs.length (docFreq docs t))

/-- Dot product of two coordinate vectors. -/
noncomputable def dotL (u v : List ℝ) : ℝ := (List.zipWith (· * ·) u v).sum

/-- Euclidean norm of a coordinate vector. -/
noncomputable def l2norm (u : List ℝ) : ℝ := Real.sqrt (dotL u u)

/-- L2 normalization as performed by scikit-learn (`norm='l2'` in the
vectorizer, and again inside `cosine_similarity`): zero vectors are left
unchanged. -/
noncomputable def l2normalize (u : List ℝ) : List ℝ :=
  if l2norm u = 0 then u else u.map (fun x => x / l2norm u)

/-- TF-IDF row vector produced by the vectorizer for `text` (normalized,
per the vectorizer's default `norm='l2'`). -/
noncomputable def tfidfVec (docs : List String) (text : String) : List ℝ :=
  l2normalize (tfidfRaw docs text)

/-- Embedding of `sklearn.metrics.pairwise.cosine_similarity` on a pair
of row vectors: normalize both rows and take the dot product. -/
noncomputable def cosineSim (u v : List ℝ) : ℝ :=
  dotL (l2normalize u) (l2normalize v)

/-- The row `cosine_similarity(query_vector, task_vectors)[0]` of
`semantic_search`: one similarity per corpus document, in corpus order. -/
noncomputable def simScores (query : String) (task_texts : List String) : List ℝ :=
  task_texts.map (fun d => cosineSim (tfidfVec task_texts query) (tfidfVec task_texts d))

/-- Embedding of `numpy.argsort` on the similarity row: the indices
`0, ..., n-1` sorted by ascending similarity.  (numpy's default sort is
not stable, so the relative order of tied indices is unspecified there;
the embedding fixes the stable order, which is immaterial to the
properties proved below, none of which involve ties.) -/
noncomputable def argsortAsc (xs : List ℝ) : List ℕ :=
  (List.range xs.length).insertionSort (fun i j => xs.getD i 0 ≤ xs.getD j 0)

/-- Embedding of `similarities.argsort()[-top_k:][::-1]`: the last `k`
indices of the ascending argsort (Python's clamping slice semantics:
`l.drop (l.length - k)` is all of `l` when `k ≥ l.length`), reversed. -/
noncomputable def topIndices (xs : List ℝ) (k : ℕ) : List ℕ :=
  ((argsortAsc xs).drop (xs.length - k)).reverse

/-- Embedding of `semantic_search(query, model_responses, top_k)`: render
each recorded response with `json.dumps`, fit the TF-IDF index on those
texts (raising `ValueError` — `Except.error` — when the fitted vocabulary
is empty), vectorize the query against the fitted index, rank the corpus
rows by cosine similarity to the query, and return the original
responses at the `top_k` highest-ranked indices, best first. -/
noncomputable def semantic_search (query : String) (model_responses : List String)
    (top_k : ℕ := 2) : Except Unit (List String) :=
  let task_texts := model_responses.map jsonDumpsStr
  if fitVocabulary task_texts = [] then .error ()
  else
    .ok ((topIndices (simScores query task_texts) top_k).map
          (fun i => model_responses.getD i ""))

/-- Invariant of the control loop: at the three dispatch nodes and at the
Resolver the error flag is always clear (the Router resets it before
handing off, and the Resolver clears it on a parsed decision), and
whenever the error flag is set, `error_details` holds a string that
signals failure (in particular a non-empty one). -/
def Inv (c : Node × State) : Prop :=
  ((c.1 = Node.connector ∨ c.1 = Node.transformer ∨ c.1 = Node.bigquery ∨
      c.1 = Node.resolver) → c.2.has_error = false) ∧
  (c.2.has_error = true → signalsFailure c.2.error_details = true)

/-- Concrete Router reply used by the sample run below: dispatch the
connector executor. -/
def exInput1 : OracleInput :=
  .router (.parsed "connector_agent" "download wb1.csv from the bucket" "{}")

/-- Concrete failing executor reply used by the sample run below. -/
def exInput2 : OracleInput := .executor "ERROR: file not found"

/-- Configuration after the Router dispatches the connector executor. -/
def exConfig1 : Node × State := step (Node.delegator, initState "req") exInput1

/-- Configuration after the connector executor fails: back at the Router
with `has_error` set. -/
def exConfig2 : Node × State := step exConfig1 exInput2

/-- Configuration after the Router hands the failure to the Resolver:
`has_error` is cleared while `error_details` still holds the failure
string and the Resolver has not yet run. -/
def exConfig3 : Node × State := step exConfig2 (.router .parseError)

/-- Concrete state in which the Resolver is invoked with one prior
executor output and a pending failure description. -/
def exResolverState : State :=
  { initState "req" with
      model_responses := ["connector_agent:downloaded wb1.csv"],
      next_agent := "conflict_resolver",
      next_task := "Resolve the error : ERROR: no such column",
      error_details := "ERROR: no such column" }

/-- Failure description used in the similarity-search scenario. -/
def exQuery : String := "ERROR: could not download wb1.csv"

/-- Recorded output topically unrelated to `exQuery` (no token in
common with it). -/
def exDoc0 : String := "bigquery_agent:created dataset emp_data"

/-- Recorded output topically similar to `exQuery` (shares the tokens
`wb1` and `csv` with it). -/
def exDoc1 : String := "connector_agent:downloaded the file wb1.csv from bucket"

/-- The two recorded outputs of the similarity-search scenario, the
dissimilar one first. -/
def exDocs : List String := [exDoc0, exDoc1]

/-- The scenario corpus as fed to the vectorizer. -/
def exTexts : List String := exDocs.map jsonDumpsStr

theorem inv_init (req : String) : Inv (Node.delegator, initState req) := by
  constructor
  · rintro (h | h | h | h) <;> cases h
  · intro h
    simp [initState] at h

theorem inv_step (c : Node × State) (inp : OracleInput) (ih : Inv c) :
    Inv (step c inp) := by
  obtain ⟨n, s⟩ := c
  cases n <;> cases inp <;> (try exact ih)
  case delegator.router o =>
    cases hs : s.has_error
    · cases o with
      | parsed agent action params =>
        cases hroute : delegator_route agent <;>
          simp [Inv, step, delegator_logic, hs, hroute]
      | parseError => simp [Inv, step, delegator_logic, hs]
    · have hroute : delegator_route "conflict_resolver" = some Node.resolver := rfl
      simp [Inv, step, delegator_logic, hs, hroute]
  case connector.executor r =>
    have hs : s.has_error = false := ih.1 (Or.inl rfl)
    cases hf : signalsFailure r <;>
      simp [Inv, step, call_connector_agent, hf, hs]
  case transformer.executor r =>
    have hs : s.has_error = false := ih.1 (Or.inr (Or.inl rfl))
    cases hf : signalsFailure r <;>
      simp [Inv, step, call_smart_transformer_agent, hf, hs]
  case bigquery.executor r =>
    have hs : s.has_error = false := ih.1 (Or.inr (Or.inr (Or.inl rfl)))
    cases hf : signalsFailure r <;>
      simp [Inv, step, call_bigquery_agent, hf, hs]
  case resolver.router o =>
    have hs : s.has_error = false := ih.1 (Or.inr (Or.inr (Or.inr rfl)))
    by_cases hlatest : s.model_responses.getLast?.getD "" = ""
    · simp [Inv, step, conflict_resolver, hlatest, hs]
    · by_cases hvocab : vocabularyIsEmpty s.model_responses
      · simp [Inv, step, conflict_resolver, hlatest, hvocab, hs]
      · cases o with
        | parsed agent action params =>
          simp [Inv, step, conflict_resolver, hlatest, hvocab, hs]
        | parseError =>
          simp [Inv, step, conflict_resolver, hlatest, hvocab, hs]

theorem inv_reachable {req : String} {c : Node × State} (h : Reachable req c) :
    Inv c := by
  induction h with
  | init => exact inv_init req
  | next c inp _ ih => exact inv_step c inp ih

theorem seqStartsWith_iff [DecidableEq α] (pat l : List α) :
    seqStartsWith pat l = true ↔ ∃ b, l = pat ++ b := by
  induction pat generalizing l with
  | nil => simp [seqStartsWith]
  | cons p ps ih =>
    cases l with
    | nil => simp [seqStartsWith]
    | cons c cs =>
      simp only [seqStartsWith, Bool.and_eq_true, decide_eq_true_eq, ih,
        List.cons_append, List.cons.injEq]
      constructor
      · rintro ⟨rfl, b, rfl⟩
        exact ⟨b, rfl, rfl⟩
      · rintro ⟨b, rfl, rfl⟩
        exact ⟨rfl, b, rfl⟩

theorem containsSeq_iff [DecidableEq α] (pat l : List α) :
    containsSeq pat l = true ↔ ∃ a b, l = a ++ pat ++ b := by
  induction l with
  | nil =>
    simp only [containsSeq, decide_eq_true_eq]
    constructor
    · rintro rfl
      exact ⟨[], [], rfl⟩
    · rintro ⟨a, b, h⟩
      rcases List.append_eq_nil.mp h.symm with ⟨h1, h2⟩
      rcases List.append_eq_nil.mp h1 with ⟨_, h3⟩
      exact h3
  | cons c cs ih =>
    simp only [containsSeq, Bool.or_eq_true, seqStartsWith_iff, ih]
    constructor
    · rintro (⟨b, hb⟩ | ⟨a, b, hab⟩)
      · exact ⟨[], b, by simpa using hb⟩
      · exact ⟨c :: a, b, by simp [hab]⟩
    · rintro ⟨a, b, h⟩
      cases a with
      | nil => exact Or.inl ⟨b, by simpa using h⟩
      | cons x a' =>
        obtain ⟨rfl, h2⟩ : c = x ∧ cs = a' ++ pat ++ b := by simpa using h
        exact Or.inr ⟨a', b, h2⟩

theorem exists_decomp_map (f : α → β) (l : List α) (pat : List β) :
    (∃ a b, l.map f = a ++ pat ++ b) ↔
      ∃ a m b, l = a ++ m ++ b ∧ m.map f = pat := by
  constructor
  · rintro ⟨a, b, h⟩
    refine ⟨l.take a.length, (l.drop a.length).take pat.length,
            (l.drop a.length).drop pat.length, ?_, ?_⟩
    · conv_lhs => rw [← List.take_append_drop a.length l,
        ← List.take_append_drop pat.length (l.drop a.length)]
      rw [List.append_assoc]
    · rw [List.map_take, List.map_drop, h, List.append_assoc, List.drop_left,
        List.take_left]
  · rintro ⟨a, m, b, rfl, rfl⟩
    exact ⟨a.map f, b.map f, by simp⟩

/-- C1: a failing executor dispatch (any of the three executors) only
sets `has_error` and stores the raw response in `error_details`; in
particular `tasks_done` and `model_responses` are untouched. -/
theorem claim_C1 (s : State) (resp : String) (hf : signalsFailure resp = true) :
    call_connector_agent s resp = { s with has_error := true, error_details := resp } ∧
    call_smart_transformer_agent s resp = { s with has_error := true, error_details := resp } ∧
    call_bigquery_agent s resp = { s with has_error := true, error_details := resp } := by
  refine ⟨?_, ?_, ?_⟩ <;>
    simp [call_connector_agent, call_smart_transformer_agent, call_bigquery_agent, hf]

/-- C1 witness: the dispatch equations of `claim_C1` instantiated at a
concrete failing response. -/
theorem claim_C1_witness :
    call_connector_agent (initState "req") "ERROR: bucket not found" =
      { initState "req" with has_error := true,
                             error_details := "ERROR: bucket not found" } :=
  (claim_C1 (initState "req") "ERROR: bucket not found" (by decide)).1

/-- C5: a Router invocation that starts with `has_error` set ignores the
model reply entirely (the conclusion holds for every `o`), hands off to
the Resolver with a task built from `error_details`, and resets the
flag. -/
theorem claim_C5 (s : State) (o : RouterOutcome) (he : s.has_error = true) :
    delegator_logic s o =
      .ok { s with next_agent := "conflict_resolver",
                   next_task := "Resolve the error : " ++ s.error_details,
                   has_error := false } := by
  simp [delegator_logic, he]

/-- C5 witness: `claim_C5` instantiated at a concrete errored state (with
a parse-failure oracle, underscoring that the model is not consulted). -/
theorem claim_C5_witness :
    delegator_logic
        { initState "req" with has_error := true, error_details := "ERROR: x" }
        .parseError =
      .ok { initState "req" with
              next_agent := "conflict_resolver",
              next_task := "Resolve the error : ERROR: x",
              has_error := false,
              error_details := "ERROR: x" } :=
  claim_C5 { initState "req" with has_error := true, error_details := "ERROR: x" }
    .parseError rfl

/-- C6: on an unparseable model reply the Router raises (uncaught
exception, `Except.error`), while the Resolver — whenever it reaches its
model call at all, i.e. given a non-empty latest output and a non-empty
fitted vocabulary — catches the exception and returns a terminal `END`
decision instead. -/
theorem claim_C6 (s : State) :
    (s.has_error = false → delegator_logic s .parseError = .error ()) ∧
    (s.model_responses.getLast?.getD "" ≠ "" →
      vocabularyIsEmpty s.model_responses = false →
      conflict_resolver s .parseError =
        .ok { s with next_agent := "END",
                     next_task := "End the workflow as the conflict could not be resolved" }) := by
  constructor
  · intro hs
    simp [delegator_logic, hs]
  · intro hl hv
    simp [conflict_resolver, hl, hv]

/-- C6 witness: both halves of `claim_C6` at concrete states. -/
theorem claim_C6_witness :
    delegator_logic (initState "req") .parseError = .error () ∧
    conflict_resolver exResolverState .parseError =
      .ok { exResolverState with
              next_agent := "END",
              next_task := "End the workflow as the conflict could not be resolved" } :=
  ⟨(claim_C6 (initState "req")).1 rfl,
   (claim_C6 exResolverState).2 (by decide) (by decide)⟩

/-- C8: invoked with no recorded executor output, the Resolver is a
no-op: it returns the state unchanged and raises nothing, for every
possible model outcome (so neither the model nor the similarity search
is consulted). -/
theorem claim_C8 (s : State) (o : RouterOutcome) (h : s.model_responses = []) :
    conflict_resolver s o = .ok s := by
  simp [conflict_resolver, h]

/-- C8 witness: `claim_C8` at the initial state. -/
theorem claim_C8_witness :
    conflict_resolver (initState "req") .parseError = .ok (initState "req") :=
  claim_C8 (initState "req") .parseError rfl

theorem eq_false_ne_true {b : Bool} (h : b = false) : ¬(b = true) := by
  rw [h]
  exact Bool.false_ne_true

/-- C2: at any reachable dispatch configuration, a non-failing executor
response makes the dispatch append exactly one entry to `tasks_done` and
leave `has_error` clear.  (The reachability hypothesis matters: the loop
invariant guarantees `has_error` is already clear when a dispatch node is
entered, and the success branches do not touch the flag.) -/
theorem claim_C2 (req : String) (c : Node × State) (resp : String)
    (h : Reachable req c)
    (hn : c.1 = Node.connector ∨ c.1 = Node.transformer ∨ c.1 = Node.bigquery)
    (hf : signalsFailure resp = false) :
    (step c (.executor resp)).2.tasks_done.length = c.2.tasks_done.length + 1 ∧
    (step c (.executor resp)).2.has_error = false := by
  obtain ⟨n, s⟩ := c
  have hs : s.has_error = false := by
    refine (inv_reachable h).1 ?_
    rcases hn with h1 | h1 | h1
    · exact Or.inl h1
    · exact Or.inr (Or.inl h1)
    · exact Or.inr (Or.inr (Or.inl h1))
  rcases hn with h1 | h1 | h1 <;> cases h1 <;>
    simp [step, call_connector_agent, call_smart_transformer_agent,
      call_bigquery_agent, hf, hs]

/-- C2 witness: `claim_C2` at the reachable connector-dispatch
configuration `exConfig1` with a concrete successful response. -/
theorem claim_C2_witness :
    (step exConfig1 (.executor "Downloaded wb1.csv to the data folder")).2.tasks_done.length =
      exConfig1.2.tasks_done.length + 1 ∧
    (step exConfig1 (.executor "Downloaded wb1.csv to the data folder")).2.has_error = false :=
  claim_C2 "req" exConfig1 "Downloaded wb1.csv to the data folder"
    (Reachable.next _ _ Reachable.init) (Or.inl (by decide)) (by decide)

/-- C3 counterexample: a concrete three-step run — Router dispatches the
connector, the connector fails, the Router hands off to the Resolver —
reaches a state where `error_details` still holds the failure string and
the failure is manifestly unresolved (the trace visits only the Router
and the connector; the Resolver node is reached for the first time at the
final configuration and has not yet run), yet `has_error` is already
false: `delegator_logic` resets the flag when routing to the Resolver.
This refutes the claimed "if and only if". -/
theorem claim_C3_counterexample :
    Reachable "req" exConfig3 ∧
    (Node.delegator, initState "req").2.has_error = false ∧
    exConfig1.1 = Node.connector ∧
    exConfig2.1 = Node.delegator ∧
    exConfig3.1 = Node.resolver ∧
    exConfig3.2.has_error = false ∧
    exConfig3.2.error_details = "ERROR: file not found" :=
  ⟨Reachable.next _ _ (Reachable.next _ _ (Reachable.next _ _ Reachable.init)),
   by decide, by decide, by decide, by decide, by decide, by decide⟩

/-- C3 (amended): only the forward direction of the claimed equivalence
holds — in every reachable configuration, `has_error = true` implies that
`error_details` is non-empty (it holds a string containing the failure
token).  The converse fails as `claim_C3_counterexample` shows. -/
theorem claim_C3 (req : String) (c : Node × State) (h : Reachable req c)
    (he : c.2.has_error = true) : c.2.error_details ≠ "" := by
  have h2 := (inv_reachable h).2 he
  intro hcontra
  rw [hcontra] at h2
  exact absurd h2 (by decide)

/-- C3 witness: `claim_C3` at the reachable configuration `exConfig2`,
reached right after the failing connector dispatch. -/
theorem claim_C3_witness : exConfig2.2.error_details ≠ "" :=
  claim_C3 "req" exConfig2
    (Reachable.next _ _ (Reachable.next _ _ Reachable.init)) (by decide)

/-- C4 counterexample: `"call_connector_agent"` is a non-terminal agent
name containing `"connector"`, yet when the Router emits it the run does
not reach the connector dispatch node and does not re-enter the Router:
the Router's conditional-edge mapping matches by exact equality, finds no
edge, and the run aborts (`crashed`).  The claimed substring matching
with routing re-entry therefore does not hold for Router decisions. -/
theorem claim_C4_counterexample :
    containsSeq "connector".toList (lowerList "call_connector_agent".toList) = true ∧
    "call_connector_agent" ≠ "END" ∧
    delegator_route "call_connector_agent" = none ∧
    (step (Node.delegator, initState "req")
      (.router (.parsed "call_connector_agent" "download wb1.csv" "{}"))).1 =
      Node.crashed :=
  ⟨by decide, by decide, by decide, by decide⟩

/-- C4 (amended): substring/keyword matching with fall-through to the
Router governs only Resolver decisions, via `resolution_flow` (checked in
the order connector, transformer, bigquery, after an exact test for
`"END"`); Router decisions are matched by exact equality against the five
known names, and any other Router output has no edge at all (the run
aborts) rather than re-entering the Router. -/
theorem claim_C4 :
    (∀ s : State, s.next_agent ≠ "END" →
      containsSeq "connector".toList (lowerList s.next_agent.toList) = true →
      resolution_flow s = "connector_agent") ∧
    (∀ s : State, s.next_agent ≠ "END" →
      containsSeq "connector".toList (lowerList s.next_agent.toList) = false →
      containsSeq "transformer".toList (lowerList s.next_agent.toList) = true →
      resolution_flow s = "smart_transformer_agent") ∧
    (∀ s : State, s.next_agent ≠ "END" →
      containsSeq "connector".toList (lowerList s.next_agent.toList) = false →
      containsSeq "transformer".toList (lowerList s.next_agent.toList) = false →
      containsSeq "bigquery".toList (lowerList s.next_agent.toList) = true →
      resolution_flow s = "bigquery_agent") ∧
    (∀ s : State, s.next_agent ≠ "END" →
      containsSeq "connector".toList (lowerList s.next_agent.toList) = false →
      containsSeq "transformer".toList (lowerList s.next_agent.toList) = false →
      containsSeq "bigquery".toList (lowerList s.next_agent.toList) = false →
      resolution_flow s = "delegator_logic") ∧
    (delegator_route "connector_agent" = some Node.connector ∧
      delegator_route "smart_transformer_agent" = some Node.transformer ∧
      delegator_route "bigquery_agent" = some Node.bigquery ∧
      delegator_route "conflict_resolver" = some Node.resolver ∧
      delegator_route "END" = some Node.done) ∧
    (∀ a : String, a ≠ "connector_agent" → a ≠ "smart_transformer_agent" →
      a ≠ "bigquery_agent" → a ≠ "conflict_resolver" → a ≠ "END" →
      delegator_route a = none) := by
  refine ⟨?_, ?_, ?_, ?_, ⟨rfl, rfl, rfl, rfl, rfl⟩, ?_⟩
  · intro s h1 h2
    unfold resolution_flow
    rw [if_neg h1, if_pos h2]
  · intro s h1 h2 h3
    unfold resolution_flow
    rw [if_neg h1, if_neg (eq_false_ne_true h2), if_pos h3]
  · intro s h1 h2 h3 h4
    unfold resolution_flow
    rw [if_neg h1, if_neg (eq_false_ne_true h2), if_neg (eq_false_ne_true h3),
      if_pos h4]
  · intro s h1 h2 h3 h4
    unfold resolution_flow
    rw [if_neg h1, if_neg (eq_false_ne_true h2), if_neg (eq_false_ne_true h3),
      if_neg (eq_false_ne_true h4)]
  · intro a h1 h2 h3 h4 h5
    simp [delegator_route, h1, h2, h3, h4, h5]

/-- C4 witness: the keyword-routing clause of `claim_C4` at a Resolver
decision `"GCS Connector Agent"` and the no-edge clause at the Router
output `"call_connector_agent"`. -/
theorem claim_C4_witness :
    resolution_flow { initState "req" with next_agent := "GCS Connector Agent" } =
      "connector_agent" ∧
    delegator_route "call_connector_agent" = none :=
  ⟨claim_C4.1 _ (by decide) (by decide),
   claim_C4.2.2.2.2.2 "call_connector_agent" (by decide) (by decide) (by decide)
     (by decide) (by decide)⟩

/-- C7 counterexample: at a concrete state with one prior output and a
pending failure description, a Resolver invocation whose model reply
fails to parse produces the terminal `END` decision but leaves
`error_details` equal to the old failure string instead of clearing it
(and leaves `has_error` untouched), refuting the claim that every
decision the Resolver produces clears both fields. -/
theorem claim_C7_counterexample :
    conflict_resolver exResolverState .parseError =
      .ok { exResolverState with
              next_agent := "END",
              next_task := "End the workflow as the conflict could not be resolved" } ∧
    (conflict_resolver exResolverState .parseError).toOption.map State.error_details =
      some "ERROR: no such column" ∧
    "ERROR: no such column" ≠ "" := by
  refine ⟨rfl, rfl, by decide⟩

/-- C7 (amended): the Resolver clears `has_error` and `error_details`
exactly when the model reply parses (whether the parsed decision is
corrective or the terminal `END`); on a parse/model exception it produces
the terminal `END` decision with `has_error` and `error_details` left
unchanged. -/
theorem claim_C7 (s : State) (agent action params : String)
    (hl : s.model_responses.getLast?.getD "" ≠ "")
    (hv : vocabularyIsEmpty s.model_responses = false) :
    conflict_resolver s (.parsed agent action params) =
      .ok { s with next_agent := agent,
                   next_task := action ++ " with parameters " ++ params,
                   has_error := false, error_details := "" } ∧
    conflict_resolver s .parseError =
      .ok { s with next_agent := "END",
                   next_task := "End the workflow as the conflict could not be resolved" } := by
  constructor <;> simp [conflict_resolver, hl, hv]

/-- C7 witness: `claim_C7` at the concrete Resolver state with a parsed
corrective decision. -/
theorem claim_C7_witness :
    conflict_resolver exResolverState
        (.parsed "connector_agent" "retry the download" "{}") =
      .ok { exResolverState with
              next_agent := "connector_agent",
              next_task := "retry the download with parameters {}",
              has_error := false, error_details := "" } :=
  (claim_C7 exResolverState "connector_agent" "retry the download" "{}"
    (by decide) (by decide)).1

/-- C10: failure detection is case-insensitive containment of the token
`ERROR`: the shared test `signalsFailure` (the embedding of
`"ERROR" in response_text.upper()`) succeeds exactly when the response
has a contiguous substring whose uppercasing is `"ERROR"` — i.e. the
token in any letter casing — and each of the three dispatches takes its
failure branch (leaving `tasks_done` untouched) exactly when that test
succeeds. -/
theorem claim_C10 (resp : String) :
    ((∃ a m b, resp.toList = a ++ m ++ b ∧ upperList m = "ERROR".toList) ↔
      signalsFailure resp = true) ∧
    ∀ s : State,
      ((call_connector_agent s resp).tasks_done = s.tasks_done ↔
        signalsFailure resp = true) ∧
      ((call_smart_transformer_agent s resp).tasks_done = s.tasks_done ↔
        signalsFailure resp = true) ∧
      ((call_bigquery_agent s resp).tasks_done = s.tasks_done ↔
        signalsFailure resp = true) := by
  constructor
  · rw [signalsFailure, containsSeq_iff]
    rw [show upperList resp.toList = resp.toList.map Char.toUpper from rfl]
    rw [exists_decomp_map Char.toUpper resp.toList "ERROR".toList]
    constructor
    · rintro ⟨a, m, b, hd, hm⟩
      exact ⟨a, m, b, hd, hm⟩
    · rintro ⟨a, m, b, hd, hm⟩
      exact ⟨a, m, b, hd, hm⟩
  · intro s
    cases hf : signalsFailure resp <;>
      refine ⟨?_, ?_, ?_⟩ <;>
        simp [call_connector_agent, call_smart_transformer_agent,
          call_bigquery_agent, hf]

theorem dotL_cons (x y : ℝ) (u v : List ℝ) :
    dotL (x :: u) (y :: v) = x * y + dotL u v := rfl

theorem dotL_map_map (l : List α) (f g : α → ℝ) :
    dotL (l.map f) (l.map g) = (l.map fun a => f a * g a).sum := by
  induction l with
  | nil => rfl
  | cons x xs ih =>
    rw [List.map_cons, List.map_cons, dotL_cons, ih, List.map_cons, List.sum_cons]

theorem dotL_self_nonneg (u : List ℝ) : 0 ≤ dotL u u := by
  induction u with
  | nil => simp [dotL]
  | cons x xs ih =>
    rw [dotL_cons]
    have := mul_self_nonneg x
    linarith

theorem l2norm_nonneg (u : List ℝ) : 0 ≤ l2norm u := Real.sqrt_nonneg _

theorem l2normalize_map (l : List α) (f : α → ℝ) :
    ∃ c : ℝ, 0 < c ∧ l2normalize (l.map f) = l.map (fun a => f a * c) := by
  by_cases h : l2norm (l.map f) = 0
  · refine ⟨1, one_pos, ?_⟩
    simp [l2normalize, h]
  · refine ⟨(l2norm (l.map f))⁻¹, ?_, ?_⟩
    · exact inv_pos.mpr (lt_of_le_of_ne (l2norm_nonneg _) (Ne.symm h))
    · simp [l2normalize, h, List.map_map, Function.comp_def, div_eq_mul_inv]

theorem cosineSim_map_zero (l : List α) (f g : α → ℝ)
    (h : ∀ a ∈ l, f a * g a = 0) : cosineSim (l.map f) (l.map g) = 0 := by
  obtain ⟨c₁, _, e₁⟩ := l2normalize_map l f
  obtain ⟨c₂, _, e₂⟩ := l2normalize_map l g
  rw [cosineSim, e₁, e₂, dotL_map_map]
  refine List.sum_eq_zero ?_
  intro x hx
  obtain ⟨a, ha, rfl⟩ := List.mem_map.mp hx
  have h2 : f a * c₁ * (g a * c₂) = f a * g a * (c₁ * c₂) := by ring
  rw [h2, h a ha, zero_mul]

theorem sum_pos_of_nonneg_of_mem {l : List ℝ} (h0 : ∀ x ∈ l, 0 ≤ x)
    {x : ℝ} (hx : x ∈ l) (hp : 0 < x) : 0 < l.sum :=
  lt_of_lt_of_le hp (List.single_le_sum h0 x hx)

theorem cosineSim_map_pos (l : List α) (f g : α → ℝ)
    (hf : ∀ a ∈ l, 0 ≤ f a) (hg : ∀ a ∈ l, 0 ≤ g a)
    (a₀ : α) (ha : a₀ ∈ l) (hfa : 0 < f a₀) (hga : 0 < g a₀) :
    0 < cosineSim (l.map f) (l.map g) := by
  obtain ⟨c₁, hc₁, e₁⟩ := l2normalize_map l f
  obtain ⟨c₂, hc₂, e₂⟩ := l2normalize_map l g
  rw [cosineSim, e₁, e₂, dotL_map_map]
  refine sum_pos_of_nonneg_of_mem ?_
    (List.mem_map_of_mem (fun a => f a * c₁ * (g a * c₂)) ha) ?_
  · intro x hx
    obtain ⟨a, ha', rfl⟩ := List.mem_map.mp hx
    exact mul_nonneg (mul_nonneg (hf a ha') hc₁.le) (mul_nonneg (hg a ha') hc₂.le)
  · exact mul_pos (mul_pos hfa hc₁) (mul_pos hga hc₂)

theorem cosineSim_normalize_zero (l : List α) (f g : α → ℝ)
    (h : ∀ a ∈ l, f a * g a = 0) :
    cosineSim (l2normalize (l.map f)) (l2normalize (l.map g)) = 0 := by
  obtain ⟨c₁, _, e₁⟩ := l2normalize_map l f
  obtain ⟨c₂, _, e₂⟩ := l2normalize_map l g
  rw [e₁, e₂]
  refine cosineSim_map_zero l _ _ ?_
  intro a ha
  have h2 : f a * c₁ * (g a * c₂) = f a * g a * (c₁ * c₂) := by ring
  rw [h2, h a ha, zero_mul]

theorem cosineSim_normalize_pos (l : List α) (f g : α → ℝ)
    (hf : ∀ a ∈ l, 0 ≤ f a) (hg : ∀ a ∈ l, 0 ≤ g a)
    (a₀ : α) (ha : a₀ ∈ l) (hfa : 0 < f a₀) (hga : 0 < g a₀) :
    0 < cosineSim (l2normalize (l.map f)) (l2normalize (l.map g)) := by
  obtain ⟨c₁, hc₁, e₁⟩ := l2normalize_map l f
  obtain ⟨c₂, hc₂, e₂⟩ := l2normalize_map l g
  rw [e₁, e₂]
  refine cosineSim_map_pos l _ _ ?_ ?_ a₀ ha ?_ ?_
  · exact fun a ha' => mul_nonneg (hf a ha') hc₁.le
  · exact fun a ha' => mul_nonneg (hg a ha') hc₂.le
  · exact mul_pos hfa hc₁
  · exact mul_pos hga hc₂

theorem docFreq_le (docs : List String) (t : String) :
    docFreq docs t ≤ docs.length := List.length_filter_le _ _

theorem idf_pos {n d : ℕ} (h : d ≤ n) : 0 < idf n d := by
  unfold idf
  have hd : (0 : ℝ) < 1 + (d : ℕ) := by positivity
  have h1 : (1 : ℝ) ≤ (1 + (n : ℝ)) / (1 + (d : ℝ)) := by
    rw [le_div_iff₀ hd]
    have := (Nat.cast_le (α := ℝ)).mpr h
    linarith
  have h2 := Real.log_nonneg h1
  linarith

theorem sorted_argsortAsc (xs : List ℝ) :
    List.Pairwise (fun i j => xs.getD i 0 ≤ xs.getD j 0) (argsortAsc xs) := by
  haveI h1 : IsTotal ℕ (fun i j => xs.getD i 0 ≤ xs.getD j 0) :=
    ⟨fun a b => le_total _ _⟩
  haveI h2 : IsTrans ℕ (fun i j => xs.getD i 0 ≤ xs.getD j 0) :=
    ⟨fun a b c hab hbc => le_trans hab hbc⟩
  exact List.sorted_insertionSort _ _

theorem mem_argsortAsc {xs : List ℝ} {j : ℕ} (hj : j < xs.length) :
    j ∈ argsortAsc xs := by
  have hperm := List.perm_insertionSort
    (fun i j => xs.getD i 0 ≤ xs.getD j 0) (List.range xs.length)
  exact hperm.mem_iff.mpr (List.mem_range.mpr hj)

theorem topIndices_chain (xs : List ℝ) (k : ℕ) :
    List.Chain' (fun x y => y ≤ x)
      ((topIndices xs k).map (fun i => xs.getD i 0)) := by
  have hd : List.Pairwise (fun i j => xs.getD i 0 ≤ xs.getD j 0)
      ((argsortAsc xs).drop (xs.length - k)) :=
    List.Pairwise.sublist (List.drop_sublist _ _) (sorted_argsortAsc xs)
  have hrev : List.Pairwise (fun i j => xs.getD j 0 ≤ xs.getD i 0)
      (topIndices xs k) := List.pairwise_reverse.mpr hd
  exact (List.pairwise_map.mpr hrev).chain'

theorem topIndices_dominance (xs : List ℝ) (k : ℕ) :
    ∀ i ∈ topIndices xs k, ∀ j, j < xs.length → j ∉ topIndices xs k →
      xs.getD j 0 ≤ xs.getD i 0 := by
  intro i hi j hj hjn
  have hi' : i ∈ (argsortAsc xs).drop (xs.length - k) := by
    simpa [topIndices] using hi
  have hjmem : j ∈ argsortAsc xs := mem_argsortAsc hj
  have hsplit : (argsortAsc xs).take (xs.length - k) ++
      (argsortAsc xs).drop (xs.length - k) = argsortAsc xs :=
    List.take_append_drop _ _
  have hj' : j ∈ (argsortAsc xs).take (xs.length - k) := by
    rw [← hsplit] at hjmem
    rcases List.mem_append.mp hjmem with h | h
    · exact h
    · exact absurd (by simpa [topIndices] using h) hjn
  have hpw := sorted_argsortAsc xs
  rw [← hsplit] at hpw
  exact (List.pairwise_append.mp hpw).2.2 j hj' i hi'

theorem topIndices_pair {a b : ℝ} (h : a ≤ b) : topIndices [a, b] 2 = [1, 0] := by
  have h01 : [a, b].getD 0 0 ≤ [a, b].getD 1 0 := by simpa using h
  have hsort : List.insertionSort
      (fun i j => [a, b].getD i 0 ≤ [a, b].getD j 0) [0, 1] = [0, 1] := by
    simp [List.insertionSort, List.orderedInsert, h01, h]
  have hrange : List.range ([a, b] : List ℝ).length = [0, 1] := rfl
  simp only [topIndices, argsortAsc, hrange, hsort]
  rfl

/-- C9 counterexample: the claim quantifies over every non-empty list of
prior outputs, but on the degenerate corpus `["a"]` (whose only
potential token is shorter than the two-character minimum of the token
pattern) the vectorizer's fitted vocabulary is empty and
`fit_transform` raises `ValueError: empty vocabulary` instead of
returning a ranking. -/
theorem claim_C9_counterexample :
    semantic_search "ERROR: file not found" ["a"] = .error () := by
  simp only [semantic_search]
  rw [if_pos (show fitVocabulary (["a"].map jsonDumpsStr) = [] from by decide)]

/-- C9 (amended): for every query and every list of prior outputs whose
rendered corpus yields a non-empty fitted vocabulary, `semantic_search`
returns the outputs at the top-2 indices of the cosine-similarity
ranking: the returned similarities are non-increasing, and every selected
index has similarity at least that of every non-selected index.
Moreover, in the two-output scenario below — one output sharing tokens
with the failure description and one sharing none — the topically
similar output comes first. -/
theorem claim_C9 :
    (∀ (query : String) (docs : List String),
      fitVocabulary (docs.map jsonDumpsStr) ≠ [] →
      semantic_search query docs = .ok
        ((topIndices (simScores query (docs.map jsonDumpsStr)) 2).map
          (fun i => docs.getD i "")) ∧
      List.Chain' (fun x y => y ≤ x)
        ((topIndices (simScores query (docs.map jsonDumpsStr)) 2).map
          (fun i => (simScores query (docs.map jsonDumpsStr)).getD i 0)) ∧
      (∀ i ∈ topIndices (simScores query (docs.map jsonDumpsStr)) 2,
        ∀ j, j < (simScores query (docs.map jsonDumpsStr)).length →
          j ∉ topIndices (simScores query (docs.map jsonDumpsStr)) 2 →
          (simScores query (docs.map jsonDumpsStr)).getD j 0 ≤
            (simScores query (docs.map jsonDumpsStr)).getD i 0)) ∧
    semantic_search "ERROR: could not download wb1.csv"
        ["bigquery_agent:created dataset emp_data",
         "connector_agent:downloaded the file wb1.csv from bucket"] =
      .ok ["connector_agent:downloaded the file wb1.csv from bucket",
           "bigquery_agent:created dataset emp_data"] := by
  constructor
  · intro query docs hvocab
    refine ⟨?_, topIndices_chain _ _, topIndices_dominance _ _⟩
    simp only [semantic_search]
    rw [if_neg hvocab]
  · show semantic_search exQuery exDocs = .ok [exDoc1, exDoc0]
    have hz : ∀ t ∈ fitVocabulary exTexts,
        termCount exQuery t = 0 ∨ termCount (jsonDumpsStr exDoc0) t = 0 := by
      decide
    have hdisj : ∀ t ∈ fitVocabulary exTexts,
        ((termCount exQuery t : ℝ) * idf exTexts.length (docFreq exTexts t)) *
          ((termCount (jsonDumpsStr exDoc0) t : ℝ) *
            idf exTexts.length (docFreq exTexts t)) = 0 := by
      intro t ht
      rcases hz t ht with h | h <;> simp [h]
    have hq0 : cosineSim (tfidfVec exTexts exQuery)
        (tfidfVec exTexts (jsonDumpsStr exDoc0)) = 0 := by
      simp only [tfidfVec, tfidfRaw]
      exact cosineSim_normalize_zero (fitVocabulary exTexts) _ _ hdisj
    have hq1 : 0 < cosineSim (tfidfVec exTexts exQuery)
        (tfidfVec exTexts (jsonDumpsStr exDoc1)) := by
      simp only [tfidfVec, tfidfRaw]
      refine cosineSim_normalize_pos (fitVocabulary exTexts) _ _ ?_ ?_ "wb1"
        (by decide) ?_ ?_
      · exact fun t _ =>
          mul_nonneg (Nat.cast_nonneg _) (idf_pos (docFreq_le exTexts t)).le
      · exact fun t _ =>
          mul_nonneg (Nat.cast_nonneg _) (idf_pos (docFreq_le exTexts t)).le
      · have h1 : termCount exQuery "wb1" = 1 := by decide
        rw [h1]
        simpa using idf_pos (docFreq_le exTexts "wb1")
      · have h2 : termCount (jsonDumpsStr exDoc1) "wb1" = 1 := by decide
        rw [h2]
        simpa using idf_pos (docFreq_le exTexts "wb1")
    have hle : cosineSim (tfidfVec exTexts exQuery)
        (tfidfVec exTexts (jsonDumpsStr exDoc0)) ≤
        cosineSim (tfidfVec exTexts exQuery)
          (tfidfVec exTexts (jsonDumpsStr exDoc1)) := by
      rw [hq0]
      exact hq1.le
    simp only [semantic_search]
    rw [if_neg (show ¬(fitVocabulary (exDocs.map jsonDumpsStr) = []) from by decide)]
    have hsim : simScores exQuery (exDocs.map jsonDumpsStr) =
        [cosineSim (tfidfVec exTexts exQuery)
          (tfidfVec exTexts (jsonDumpsStr exDoc0)),
         cosineSim (tfidfVec exTexts exQuery)
          (tfidfVec exTexts (jsonDumpsStr exDoc1))] := rfl
    rw [hsim, topIndices_pair hle]
    rfl

/-- C9 witness: the general clause of `claim_C9` at a one-document corpus
whose fitted vocabulary is non-empty. -/
theorem claim_C9_witness :
    semantic_search "ab" ["ab"] = .ok
      ((topIndices (simScores "ab" (["ab"].map jsonDumpsStr)) 2).map
        (fun i => (["ab"] : List String).getD i "")) ∧
    List.Chain' (fun x y => y ≤ x)
      ((topIndices (simScores "ab" (["ab"].map jsonDumpsStr)) 2).map
        (fun i => (simScores "ab" (["ab"].map jsonDumpsStr)).getD i 0)) ∧
    (∀ i ∈ topIndices (simScores "ab" (["ab"].map jsonDumpsStr)) 2,
      ∀ j, j < (simScores "ab" (["ab"].map jsonDumpsStr)).length →
        j ∉ topIndices (simScores "ab" (["ab"].map jsonDumpsStr)) 2 →
        (simScores "ab" (["ab"].map jsonDumpsStr)).getD j 0 ≤
          (simScores "ab" (["ab"].map jsonDumpsStr)).getD i 0) :=
  claim_C9.1 "ab" ["ab"] (by decide)

end DataEngineerWorkflow
